import Mathlib

/-!
Shallow embedding of the products-processor repository
(src/product_processor/{product,serialization,pipeline,operations}.py)
and proofs about the claims of its specification.
-/

/-- An XML element as seen through lxml: a tag, optional text content, and
the list of direct children (in document order).  Attribute nodes of the
XML markup are not used by the program and are not modelled. -/
inductive XElem where
| mk (tag : String) (text : Option String) (children : List XElem)
deriving Repr

def XElem.tag : XElem → String
| XElem.mk t _ _ => t

def XElem.text : XElem → Option String
| XElem.mk _ t _ => t

def XElem.children : XElem → List XElem
| XElem.mk _ _ c => c

/-- `elem.find(tag)`: first direct child with the given tag, if any. -/
def XElem.find (e : XElem) (t : String) : Option XElem :=
  e.children.find? (fun c => c.tag == t)

/-- `elem.findall(tag)`: all direct children with the given tag, in order. -/
def XElem.findall (e : XElem) (t : String) : List XElem :=
  e.children.filter (fun c => c.tag == t)

/-- `attr_elem.findtext(tag) or ""`: text of the first child with the given
tag; `findtext` yields the empty string when the child has no text and
`None` when there is no such child, and the `or ""` in the source maps
every falsy outcome to the empty string. -/
def XElem.findtextOrEmpty (e : XElem) (t : String) : String :=
  match XElem.find e t with
  | none => ""
  | some c => c.text.getD ("")

/-- `Attribute` dataclass of product.py: a (name, value) pair. -/
structure Attribute where
  name : String
  value : String
deriving Repr, DecidableEq

/-- A Python value as it occurs in the constructor keyword arguments built
by the reader and in dataclass defaults.  Floats are modelled as exact
rationals; no settled claim depends on IEEE rounding. -/
inductive PyVal where
| int (i : Int)
| float (q : Rat)
| str (s : String)
| none
| strList (l : List String)
| attrList (l : List Attribute)
deriving Repr, DecidableEq

/-- A keyword-argument list / field map, in insertion order (a Python dict
whose keys are inserted in program order). -/
abbrev PyKwargs := List (String × PyVal)

/-- First binding of a key in a kwargs list, as Python dict lookup. -/
def lookupKw : PyKwargs → String → Option PyVal
| [], _ => none
| kv :: rest, k => if kv.1 = k then some kv.2 else lookupKw rest k

/-- One declared dataclass field: its name and its default value, when the
declaration has one. -/
structure FieldDecl where
  name : String
  default : Option PyVal
deriving Repr, DecidableEq

/-- The fields of the `Product` dataclass (product.py), in declaration
order, with their declared defaults.  Note that there is no `images`
field: the images are spread over `image`, `image_extra_1` ... `image_extra_15`. -/
def productFields : List FieldDecl := [
  ⟨"product_id", Option.none⟩,
  ⟨"name", Option.none⟩,
  ⟨"quantity", Option.none⟩,
  ⟨"ean", Option.none⟩,
  ⟨"sku", Option.none⟩,
  ⟨"category_name", Option.none⟩,
  ⟨"price", Option.none⟩,
  ⟨"tax_rate", Option.none⟩,
  ⟨"weight", Option.none⟩,
  ⟨"width", Option.none⟩,
  ⟨"height", Option.none⟩,
  ⟨"length", Option.none⟩,
  ⟨"description", some (PyVal.str (""))⟩,
  ⟨"description_extra_1", some PyVal.none⟩,
  ⟨"description_extra_2", some PyVal.none⟩,
  ⟨"manufacturer_name", some (PyVal.str (""))⟩,
  ⟨"purchase_price", some (PyVal.str (""))⟩,
  ⟨"image", some (PyVal.str (""))⟩,
  ⟨"image_extra_1", some (PyVal.str (""))⟩,
  ⟨"image_extra_2", some (PyVal.str (""))⟩,
  ⟨"image_extra_3", some (PyVal.str (""))⟩,
  ⟨"image_extra_4", some (PyVal.str (""))⟩,
  ⟨"image_extra_5", some (PyVal.str (""))⟩,
  ⟨"image_extra_6", some (PyVal.str (""))⟩,
  ⟨"image_extra_7", some (PyVal.str (""))⟩,
  ⟨"image_extra_8", some (PyVal.str (""))⟩,
  ⟨"image_extra_9", some (PyVal.str (""))⟩,
  ⟨"image_extra_10", some (PyVal.str (""))⟩,
  ⟨"image_extra_11", some (PyVal.str (""))⟩,
  ⟨"image_extra_12", some (PyVal.str (""))⟩,
  ⟨"image_extra_13", some (PyVal.str (""))⟩,
  ⟨"image_extra_14", some (PyVal.str (""))⟩,
  ⟨"image_extra_15", some (PyVal.str (""))⟩,
  ⟨"attributes", some (PyVal.attrList [])⟩,
  ⟨"variants", some (PyVal.str (""))⟩]

/-- The fields of `ProductWithName` (product.py): `Product` plus an
optional `man_name`. -/
def productWithNameFields : List FieldDecl :=
  productFields ++ [⟨"man_name", some PyVal.none⟩]

/-- Calling a dataclass constructor with keyword arguments: an
undeclared keyword raises `TypeError`, a declared field without default
and without argument raises `TypeError`, otherwise every field gets its
argument or its default. -/
def dataclassInit (fields : List FieldDecl) (kwargs : PyKwargs) :
    Except String PyKwargs :=
  match kwargs.find? (fun kv => !(fields.any (fun fd => fd.name == kv.1))) with
  | some kv =>
    Except.error ("TypeError: __init__() got an unexpected keyword argument " ++ kv.1)
  | none =>
    match fields.find? (fun fd =>
        fd.default.isNone && !(kwargs.any (fun kv => kv.1 == fd.name))) with
    | some fd =>
      Except.error ("TypeError: __init__() missing required argument " ++ fd.name)
    | none =>
      Except.ok (fields.map (fun fd =>
        (fd.name, match lookupKw kwargs fd.name with
                  | some v => v
                  | none => fd.default.getD PyVal.none)))

/-- Digits-only string to a natural number (base 10). -/
def natOfDigits (s : String) : Option Nat :=
  if s.length > 0 && s.all Char.isDigit then
    some (s.foldl (fun acc c => acc * 10 + (c.toNat - 48)) 0)
  else none

/-- Python `int(text)`: optional surrounding whitespace, optional single
sign, decimal digits. -/
def pyInt (s : String) : Except String Int :=
  let t := s.trim
  let sd :=
    if t.startsWith ("-") then (true, t.drop 1)
    else if t.startsWith ("+") then (false, t.drop 1)
    else (false, t)
  match natOfDigits sd.2 with
  | some n => Except.ok (if sd.1 then -(n : Int) else (n : Int))
  | none => Except.error ("ValueError: invalid literal for int with base 10: " ++ s)

/-- Mantissa of a Python float literal: `digits`, `digits.digits`,
`.digits` or `digits.`. -/
def parseMantissa (s : String) : Option Rat :=
  match s.splitOn (".") with
  | [ip] => (natOfDigits ip).map (fun n => (n : Rat))
  | [ip, fp] =>
    if ip.length == 0 && fp.length == 0 then none
    else
      let ipn := if ip.length == 0 then some 0 else natOfDigits ip
      let fpn := if fp.length == 0 then some 0 else natOfDigits fp
      match ipn, fpn with
      | some i, some f => some ((i : Rat) + (f : Rat) / ((10 : Rat) ^ fp.length))
      | _, _ => Option.none
  | _ => none

/-- Python `float(text)`, modelled over exact rationals (the IEEE
rounding of the resulting double, and the special values inf/nan, are
outside this model; no settled claim depends on them). -/
def pyFloat (s : String) : Except String Rat :=
  let t := s.trim
  let sd :=
    if t.startsWith ("-") then (true, t.drop 1)
    else if t.startsWith ("+") then (false, t.drop 1)
    else (false, t)
  match (sd.2.map Char.toLower).splitOn ("e") with
  | [m] =>
    match parseMantissa m with
    | some q => Except.ok (if sd.1 then -q else q)
    | none => Except.error ("ValueError: could not convert string to float: " ++ s)
  | [m, ex] =>
    let esd :=
      if ex.startsWith ("-") then (true, ex.drop 1)
      else if ex.startsWith ("+") then (false, ex.drop 1)
      else (false, ex)
    match parseMantissa m, natOfDigits esd.2 with
    | some q, some n =>
      let p : Rat := (10 : Rat) ^ n
      Except.ok ((if sd.1 then -q else q) * (if esd.1 then 1 / p else p))
    | _, _ => Except.error ("ValueError: could not convert string to float: " ++ s)
  | _ => Except.error ("ValueError: could not convert string to float: " ++ s)

/-- The simple-field list shared by `_element_to_product` and
`_product_to_element` (serialization.py, lines 45-50 and 101-106), in
source order. -/
def simpleFields : List String := [
  "product_id", "name", "quantity", "ean", "sku",
  "category_name", "manufacturer_name", "price",
  "tax_rate", "weight", "width", "height", "length",
  "description", "description_extra_1", "description_extra_2"]

/-- Scalar coercion applied by `_element_to_product` to one simple field:
`int` for product_id/quantity, `float` for price/weight/width/height/length,
the text itself otherwise. -/
def coerceField (f : String) (text : String) : Except String PyVal :=
  if f == "product_id" || f == "quantity" then
    (pyInt text).map PyVal.int
  else if f == "price" || f == "weight" || f == "width" || f == "height" || f == "length" then
    (pyFloat text).map PyVal.float
  else Except.ok (PyVal.str text)

/-- The simple-field loop of `_element_to_product`: for each field in
order, when a same-named child with non-None text exists, coerce the text
and record the keyword argument; a coercion failure raises. -/
def simpleKwargsAux (elem : XElem) : List String → Except String PyKwargs
| [] => Except.ok []
| f :: fs =>
  match XElem.find elem f with
  | none => simpleKwargsAux elem fs
  | some child =>
    match child.text with
    | none => simpleKwargsAux elem fs
    | some text =>
      match coerceField f text with
      | Except.error m => Except.error m
      | Except.ok v =>
        match simpleKwargsAux elem fs with
        | Except.error m => Except.error m
        | Except.ok kws => Except.ok ((f, v) :: kws)

/-- The images block of `_element_to_product`: every `<image>` child of
the `<images>` container whose text is truthy, in document order. -/
def readImages (elem : XElem) : List String :=
  match XElem.find elem ("images") with
  | none => []
  | some ie =>
    (XElem.findall ie ("image")).filterMap (fun img =>
      match img.text with
      | some t => if t = "" then none else some t
      | none => none)

/-- The attributes block of `_element_to_product`: every `<attribute>`
child of the `<attributes>` container contributes an `Attribute` whose
name and value are `findtext(..) or ""`. -/
def readAttributes (elem : XElem) : List Attribute :=
  match XElem.find elem ("attributes") with
  | none => []
  | some ae =>
    (XElem.findall ae ("attribute")).map (fun a =>
      { name := XElem.findtextOrEmpty a ("name"),
        value := XElem.findtextOrEmpty a ("value") })

/-- The keyword arguments assembled by `_element_to_product` before the
constructor call: the simple fields, then always `images`, then always
`attributes`. -/
def elementToKwargs (elem : XElem) : Except String PyKwargs :=
  match simpleKwargsAux elem simpleFields with
  | Except.error m => Except.error m
  | Except.ok kws =>
    Except.ok (kws ++ [("images", PyVal.strList (readImages elem)),
                       ("attributes", PyVal.attrList (readAttributes elem))])

/-- `ProductXMLReader._element_to_product`: build the keyword arguments
from the element and call the configured product class on them. -/
def ProductXMLReader.element_to_product {R : Type}
    (init : PyKwargs → Except String R) (elem : XElem) : Except String R :=
  match elementToKwargs elem with
  | Except.error m => Except.error m
  | Except.ok kw => init kw

/-- `ProductXMLReader.stream_products`: one `<product>` end event per
element; a conversion failure prints an error line and the element is
skipped; the pair collects the yielded records and the printed error
lines, in order. -/
def ProductXMLReader.stream_products {R : Type}
    (convert : XElem → Except String R) : List XElem → List R × List String
| [] => ([], [])
| e :: rest =>
  match convert e with
  | Except.ok r =>
    let res := ProductXMLReader.stream_products convert rest
    (r :: res.1, res.2)
  | Except.error m =>
    let res := ProductXMLReader.stream_products convert rest
    (res.1, ("Error while parsing <product>: " ++ m) :: res.2)

/-- The `Product` dataclass of product.py as a typed record.  Floats are
modelled as exact rationals.  There is no `images` field. -/
structure Product where
  product_id : Int
  name : String
  quantity : Int
  ean : String
  sku : String
  category_name : String
  price : Rat
  tax_rate : String
  weight : Rat
  width : Rat
  height : Rat
  length : Rat
  description : String := ""
  description_extra_1 : Option String := Option.none
  description_extra_2 : Option String := Option.none
  manufacturer_name : String := ""
  purchase_price : String := ""
  image : String := ""
  image_extra_1 : String := ""
  image_extra_2 : String := ""
  image_extra_3 : String := ""
  image_extra_4 : String := ""
  image_extra_5 : String := ""
  image_extra_6 : String := ""
  image_extra_7 : String := ""
  image_extra_8 : String := ""
  image_extra_9 : String := ""
  image_extra_10 : String := ""
  image_extra_11 : String := ""
  image_extra_12 : String := ""
  image_extra_13 : String := ""
  image_extra_14 : String := ""
  image_extra_15 : String := ""
  attributes : List Attribute := []
  variants : String := ""
deriving Repr

/-- `Product.add_attribute` on the attribute list: update the value of
the first attribute with the given name and stop, or append a new
attribute at the end when no name matches. -/
def addAttributeList (attrs : List Attribute) (n v : String) : List Attribute :=
  match attrs with
  | [] => [{ name := n, value := v }]
  | a :: rest =>
    if a.name = n then { name := a.name, value := v } :: rest
    else a :: addAttributeList rest n v

/-- `Product.add_attribute(name, value)` (product.py, lines 49-59). -/
def Product.add_attribute (p : Product) (n v : String) : Product :=
  { p with attributes := addAttributeList p.attributes n v }

/-- The `Product` constructor as the reader calls it: keyword arguments
against the declared field list; the successful result is the field map
of the constructed instance. -/
def Product.init : PyKwargs → Except String PyKwargs :=
  dataclassInit productFields

/-- The `ProductWithName` constructor, likewise. -/
def ProductWithName.init : PyKwargs → Except String PyKwargs :=
  dataclassInit productWithNameFields

/-- Stand-in for Python repr of a float, rendered from the exact
rational; its exact spelling is unobservable in every settled claim
because `_product_to_element` raises before its result is used. -/
def pyFloatRepr (q : Rat) : String :=
  toString q.num ++ (if q.den == 1 then ("") else ("/") ++ toString q.den)

/-- `ProductXMLWriter._product_to_element` (serialization.py, lines
96-133): the simple-field loop succeeds (description fields become CDATA
blocks, whose text content is the same string), and then the
`if product.images:` access raises `AttributeError`, because `Product`
declares no `images` field. -/
def ProductXMLWriter.product_to_element (product : Product) : Except String XElem :=
  let fieldVals : List (String × Option String) := [
    ("product_id", some (toString product.product_id)),
    ("name", some product.name),
    ("quantity", some (toString product.quantity)),
    ("ean", some product.ean),
    ("sku", some product.sku),
    ("category_name", some product.category_name),
    ("manufacturer_name", some product.manufacturer_name),
    ("price", some (pyFloatRepr product.price)),
    ("tax_rate", some product.tax_rate),
    ("weight", some (pyFloatRepr product.weight)),
    ("width", some (pyFloatRepr product.width)),
    ("height", some (pyFloatRepr product.height)),
    ("length", some (pyFloatRepr product.length)),
    ("description", some product.description),
    ("description_extra_1", product.description_extra_1),
    ("description_extra_2", product.description_extra_2)]
  let _children : List XElem := fieldVals.filterMap (fun fv =>
    fv.2.map (fun t => XElem.mk fv.1 (some t) []))
  Except.error ("AttributeError: \x27Product\x27 object has no attribute \x27images\x27")

/-- Plain serialization of an element, standing in for
`etree.tostring(elem, pretty_print=True)`; its exact formatting is
unobservable in every settled claim because `_product_to_element` raises
before any element reaches it. -/
def serializeElem : XElem → String
| XElem.mk t tx children =>
  "<" ++ t ++ ">" ++ tx.getD ("") ++
    String.join (children.attach.map (fun c => serializeElem c.1)) ++
    "</" ++ t ++ ">"
decreasing_by
have h := List.sizeOf_lt_of_mem c.2
simp only [XElem.mk.sizeOf_spec]
omega

/-- The per-product loop of `save_products`: serialize each product in
turn; an exception ends the loop (and the run) with no further writes. -/
def saveProductsLoop : List Product → List String × Option String
| [] => (["</products>\n"], Option.none)
| p :: rest =>
  match ProductXMLWriter.product_to_element p with
  | Except.error m => ([], some m)
  | Except.ok e =>
    let res := saveProductsLoop rest
    (serializeElem e :: res.1, res.2)

/-- `ProductXMLWriter.save_products` (serialization.py, lines 135-147):
the chunks written to the file, in write order, paired with the
exception that ended the run, if any.  The declaration line and the root
opening tag are written before the first product is consumed. -/
def ProductXMLWriter.save_products (ps : List Product) : List String × Option String :=
  let res := saveProductsLoop ps
  ("<?xml version=\x271.0\x27 encoding=\x27utf-8\x27?>\n" :: "<products>\n" :: res.1, res.2)

/-- The `_fix_amps` string cleanup shared by every ampersand-fixing
variant: the three replacements, in source order. -/
def fixAmpsStr (text : String) : String :=
  ((text.replace ("&amp;nbsp;") (" ")).replace ("&amp;amp;") ("&")).replace ("&amp;") ("&")

/-- `FixAmpersands.__call__._fix_amps` (pipeline.py, lines 17-24): a
falsy argument (`None` or the empty string) becomes the empty string,
otherwise the replacements run. -/
def fixAmpsOrEmpty (text : Option String) : String :=
  match text with
  | none => ""
  | some t => if t = "" then ("") else fixAmpsStr t

/-- `FixAmpersands.__call__` (pipeline.py, lines 16-30): rewrites the
description, both extra descriptions and the name; total. -/
def FixAmpersands.call (p : Product) : Product :=
  { p with
    description := fixAmpsOrEmpty (some p.description),
    description_extra_1 := some (fixAmpsOrEmpty p.description_extra_1),
    description_extra_2 := some (fixAmpsOrEmpty p.description_extra_2),
    name := fixAmpsOrEmpty (some p.name) }

/-- `Operations.fix_amps._fix_amps` (operations.py, lines 15-19): typed
`str`, so calling `.replace` on `None` raises `AttributeError`. -/
def fixAmpsGenStr (text : Option String) : Except String String :=
  match text with
  | none =>
    Except.error ("AttributeError: \x27NoneType\x27 object has no attribute \x27replace\x27")
  | some t => Except.ok (fixAmpsStr t)

/-- The per-record body of the generator `Operations.fix_amps`
(operations.py, lines 22-27): description, both extra descriptions and
the name are rewritten in that order; the first `None` among them
raises. -/
def Operations.fix_amps_one (p : Product) : Except String Product :=
  match fixAmpsGenStr (some p.description) with
  | Except.error m => Except.error m
  | Except.ok d =>
    match fixAmpsGenStr p.description_extra_1 with
    | Except.error m => Except.error m
    | Except.ok d1 =>
      match fixAmpsGenStr p.description_extra_2 with
      | Except.error m => Except.error m
      | Except.ok d2 =>
        match fixAmpsGenStr (some p.name) with
        | Except.error m => Except.error m
        | Except.ok n =>
          Except.ok { p with
            description := d,
            description_extra_1 := some d1,
            description_extra_2 := some d2,
            name := n }

/-- The shared tally of `CollectManufacturers`: a Python dict from
manufacturer name to count, in insertion order.  In the source it is a
class-level attribute (`manufacturers: dict[str, int] = dict()`,
pipeline.py line 65), so it is one dict shared by every instance. -/
abbrev ManuStats := List (String × Nat)

/-- Python dict lookup on the tally. -/
def dictGet : ManuStats → String → Option Nat
| [], _ => none
| kv :: rest, k => if kv.1 = k then some kv.2 else dictGet rest k

/-- `if key in d: d[key] += 1 else: d[key] = 1` on an insertion-ordered
dict. -/
def dictIncr (d : ManuStats) (k : String) : ManuStats :=
  if d.any (fun kv => kv.1 == k) then
    d.map (fun kv => if kv.1 == k then (kv.1, kv.2 + 1) else kv)
  else d ++ [(k, 1)]

/-- A `CollectManufacturers` instance.  The class defines no per-instance
state, only an identity; the tally lives in the class attribute, which is
passed around explicitly as the shared state. -/
structure CMInstance where
  id : Nat
deriving Repr, DecidableEq

/-- `CollectManufacturers()` — constructing an instance touches no state;
the class attribute is untouched. -/
def CollectManufacturers.new (n : Nat) : CMInstance := ⟨n⟩

/-- `CollectManufacturers.__call__` (pipeline.py, lines 67-72): bump the
shared class-level tally at the manufacturer name of the record and return the
record unchanged.  Which instance runs is irrelevant: `self.manufacturers`
resolves to the class attribute. -/
def CollectManufacturers.call (shared : ManuStats) (_inst : CMInstance)
    (p : Product) : ManuStats × Product :=
  (dictIncr shared p.manufacturer_name, p)

/-- `CollectManufacturers.get_stats` (pipeline.py, lines 74-75): a copy of
the shared class-level dict, whichever instance is asked. -/
def CollectManufacturers.get_stats (shared : ManuStats) (_inst : CMInstance) :
    ManuStats := shared

/-- `AsyncPipeline` (pipeline.py, lines 78-94): an ordered list of steps.
Each step is `await`ed to completion before the next starts, so a step is
modelled as the record-to-record function it computes. -/
structure AsyncPipeline (T : Type) where
  steps : List (T → T)

/-- `AsyncPipeline.add`: append a step and return the pipeline. -/
def AsyncPipeline.add {T : Type} (pl : AsyncPipeline T) (step : T → T) :
    AsyncPipeline T :=
  { pl with steps := pl.steps ++ [step] }

/-- The inner loop of `AsyncPipeline.run`: thread the record through
every step in list order. -/
def applySteps {T : Type} (steps : List (T → T)) (p : T) : T :=
  steps.foldl (fun q s => s q) p

/-- `AsyncPipeline.run`: for each input record in order, apply every step
in list order, then yield the result before pulling the next record. -/
def AsyncPipeline.run {T : Type} (pl : AsyncPipeline T) (items : List T) :
    List T :=
  items.map (applySteps pl.steps)

/-- One observable event of a pipeline run: pulling an input record,
one step completing with its result, or yielding a transformed record. -/
inductive PipeEvent (T : Type) where
| pulled (p : T)
| stepped (p : T)
| yielded (p : T)
deriving Repr

/-- The events of the inner step loop for one record, paired with the
final record. -/
def stepTrace {T : Type} : List (T → T) → T → List (PipeEvent T) × T
| [], p => ([], p)
| s :: rest, p =>
  let res := stepTrace rest (s p)
  (PipeEvent.stepped (s p) :: res.1, res.2)

/-- The event trace of `AsyncPipeline.run`: per input record, a pull,
the step completions in order, and the yield, strictly before the pull of the next
record. -/
def AsyncPipeline.runTrace {T : Type} (steps : List (T → T)) :
    List T → List (PipeEvent T)
| [] => []
| p :: rest =>
  (PipeEvent.pulled p :: (stepTrace steps p).1 ++ [PipeEvent.yielded (stepTrace steps p).2])
    ++ AsyncPipeline.runTrace steps rest

/-- A well-formed `<product>` element with no children at all: every
schema field is absent. -/
def emptyProductElem : XElem := XElem.mk ("product") Option.none []

/-- A `<product>` element whose `<attributes>` container holds a single
`<attribute>` entry lacking both the name and the value sub-field. -/
def bareAttrProductElem : XElem :=
  XElem.mk ("product") Option.none
    [XElem.mk ("attributes") Option.none [XElem.mk ("attribute") Option.none []]]

/-- A concrete product with the required fields filled and everything
else at its default. -/
def sampleProduct : Product :=
  { product_id := 1, name := "n", quantity := 2, ean := "e", sku := "s",
    category_name := "c", price := 0, tax_rate := "23", weight := 0,
    width := 0, height := 0, length := 0 }

/-- A concrete product whose attribute list already carries two
attributes with the same name. -/
def dupAttrProduct : Product :=
  { sampleProduct with attributes := [⟨"K", "a"⟩, ⟨"K", "b"⟩] }

/-- The error message of the constructor call on the keyword
arguments: `images` is not a declared field of `Product`. -/
def unexpectedImagesMsg : String :=
  "TypeError: __init__() got an unexpected keyword argument images"

theorem lookupKw_eq_none (l : PyKwargs) (k : String)
    (h : ∀ kv ∈ l, kv.1 ≠ k) : lookupKw l k = Option.none := by
  induction l with
  | nil => rfl
  | cons kv rest ih =>
    have hk := h kv (List.mem_cons_self kv rest)
    simp only [lookupKw, if_neg hk]
    exact ih (fun x hx => h x (List.mem_cons_of_mem kv hx))

theorem lookupKw_append (l1 l2 : PyKwargs) (k : String)
    (h : ∀ kv ∈ l1, kv.1 ≠ k) :
    lookupKw (l1 ++ l2) k = lookupKw l2 k := by
  induction l1 with
  | nil => rfl
  | cons kv rest ih =>
    have hk := h kv (List.mem_cons_self kv rest)
    simp only [List.cons_append, lookupKw, if_neg hk]
    exact ih (fun x hx => h x (List.mem_cons_of_mem kv hx))

/-- The exception test on a modelled result: did the call raise? -/
def isErr {α : Type} : Except String α → Bool
| Except.error _ => true
| Except.ok _ => false

theorem simpleKwargsAux_keys (e : XElem) :
    ∀ (fs : List String) (kws : PyKwargs), simpleKwargsAux e fs = Except.ok kws →
      ∀ kv ∈ kws, kv.1 ∈ fs ∧ (XElem.find e kv.1).isSome = true := by
  intro fs
  induction fs with
  | nil =>
    intro kws h kv hkv
    simp only [simpleKwargsAux] at h
    cases h
    simp at hkv
  | cons f fs ih =>
    intro kws h kv hkv
    simp only [simpleKwargsAux] at h
    split at h
    · have hres := ih kws h kv hkv
      exact ⟨List.mem_cons_of_mem f hres.1, hres.2⟩
    next child hfind =>
      split at h
      · have hres := ih kws h kv hkv
        exact ⟨List.mem_cons_of_mem f hres.1, hres.2⟩
      next text htext =>
        split at h
        · cases h
        next v hco =>
          split at h
          · cases h
          next kws2 hrest =>
            cases h
            rcases List.mem_cons.mp hkv with hkv | hkv
            · subst hkv
              exact ⟨List.mem_cons_self f fs, by rw [hfind]; rfl⟩
            · have hres := ih kws2 hrest kv hkv
              exact ⟨List.mem_cons_of_mem f hres.1, hres.2⟩

theorem dataclassInit_isErr_of_undeclared (fields : List FieldDecl)
    (kwargs : PyKwargs) (k : String) (v : PyVal)
    (hmem : (k, v) ∈ kwargs)
    (hk : fields.any (fun fd => fd.name == k) = false) :
    isErr (dataclassInit fields kwargs) = true := by
  cases hf : kwargs.find? (fun kv => !(fields.any (fun fd => fd.name == kv.1))) with
  | none =>
    exfalso
    have := List.find?_eq_none.mp hf (k, v) hmem
    simp [hk] at this
  | some kv =>
    simp [dataclassInit, hf, isErr]

theorem elementToKwargs_shape (e : XElem) (kw : PyKwargs)
    (h : elementToKwargs e = Except.ok kw) :
    ∃ kws, simpleKwargsAux e simpleFields = Except.ok kws ∧
      kw = kws ++ [("images", PyVal.strList (readImages e)),
                   ("attributes", PyVal.attrList (readAttributes e))] := by
  unfold elementToKwargs at h
  cases hs : simpleKwargsAux e simpleFields with
  | error m => rw [hs] at h; cases h
  | ok kws => rw [hs] at h; cases h; exact ⟨kws, rfl, rfl⟩

theorem element_to_product_isErr (fields : List FieldDecl)
    (hf : fields.any (fun fd => fd.name == "images") = false) (e : XElem) :
    isErr (ProductXMLReader.element_to_product (dataclassInit fields) e) = true := by
  unfold ProductXMLReader.element_to_product
  cases hk : elementToKwargs e with
  | error m => rfl
  | ok kw =>
    obtain ⟨kws, _, hshape⟩ := elementToKwargs_shape e kw hk
    subst hshape
    exact dataclassInit_isErr_of_undeclared fields _ ("images")
      (PyVal.strList (readImages e)) (by simp) hf

theorem simpleFields_no_containers :
    simpleFields.all (fun f => !(f == "images") && !(f == "attributes")) = true := by
  decide

theorem simpleKwargs_key_ne (e : XElem) (kws : PyKwargs)
    (h : simpleKwargsAux e simpleFields = Except.ok kws) (k : String)
    (hk : simpleFields.all (fun f => !(f == k)) = true) :
    ∀ kv ∈ kws, kv.1 ≠ k := by
  intro kv hkv
  have hmem := (simpleKwargsAux_keys e simpleFields kws h kv hkv).1
  have := List.all_eq_true.mp hk kv.1 hmem
  simpa using this

theorem dictGet_eq_none (d : ManuStats) (k : String)
    (h : d.any (fun kv => kv.1 == k) = false) : dictGet d k = Option.none := by
  induction d with
  | nil => rfl
  | cons kv rest ih =>
    simp only [List.any_cons, Bool.or_eq_false_iff] at h
    have hne : kv.1 ≠ k := by simpa using h.1
    simp only [dictGet, if_neg hne]
    exact ih h.2

theorem dictGet_append_all_miss (d l2 : ManuStats) (k : String)
    (h : d.any (fun kv => kv.1 == k) = false) :
    dictGet (d ++ l2) k = dictGet l2 k := by
  induction d with
  | nil => rfl
  | cons kv rest ih =>
    simp only [List.any_cons, Bool.or_eq_false_iff] at h
    have hne : kv.1 ≠ k := by simpa using h.1
    simp only [List.cons_append, dictGet, if_neg hne]
    exact ih h.2

theorem dictGet_map_incr (d : ManuStats) (k : String)
    (h : d.any (fun kv => kv.1 == k) = true) :
    dictGet (d.map (fun kv => if kv.1 == k then (kv.1, kv.2 + 1) else kv)) k
      = some ((dictGet d k).getD 0 + 1) := by
  induction d with
  | nil => cases h
  | cons a t ih =>
    by_cases ha : a.1 = k
    · simp [dictGet, ha]
    · have hb : (a.1 == k) = false := by simpa using ha
      simp only [List.any_cons, hb, Bool.false_or] at h
      simpa [List.map_cons, hb, dictGet, ha] using ih h

theorem dictGet_dictIncr (d : ManuStats) (k : String) :
    dictGet (dictIncr d k) k = some ((dictGet d k).getD 0 + 1) := by
  unfold dictIncr
  by_cases h : d.any (fun kv => kv.1 == k) = true
  · rw [if_pos h]
    exact dictGet_map_incr d k h
  · have hf : d.any (fun kv => kv.1 == k) = false := Bool.eq_false_iff.mpr h
    rw [if_neg h]
    rw [dictGet_append_all_miss d _ k hf, dictGet_eq_none d k hf]
    simp [dictGet]

theorem addAttr_twice_filter (l : List Attribute) (K V1 V2 : String)
    (h : l.countP (fun a => a.name == K) ≤ 1) :
    (addAttributeList (addAttributeList l K V1) K V2).filter (fun a => a.name == K)
      = [{ name := K, value := V2 }] := by
  induction l with
  | nil =>
    simp [addAttributeList, List.filter]
  | cons a t ih =>
    by_cases ha : a.name = K
    · have hb : (a.name == K) = true := by simpa using ha
      have hc : t.countP (fun a => a.name == K) = 0 := by
        rw [List.countP_cons_of_pos _ _ (by simpa using ha)] at h
        omega
      have hfil : t.filter (fun a => a.name == K) = [] := by
        rw [List.countP_eq_length_filter] at hc
        exact List.length_eq_zero.mp hc
      simp [addAttributeList, ha, List.filter, hb, hfil]
    · have hb : (a.name == K) = false := by simpa using ha
      have hc : t.countP (fun a => a.name == K) ≤ 1 := by
        rw [List.countP_cons_of_neg _ _ (by simpa using ha)] at h
        exact h
      simp only [addAttributeList, if_neg ha, List.filter_cons, hb]
      simpa using ih hc

/-- C1: the round-trip property of the spec (decode, encode, decode again
yields an equal record) cannot hold on the code as shipped: the writer
raises `AttributeError` on `product.images` for every `Product`, and the
reader raises `TypeError` on the `images` keyword argument for every
element, so no record ever completes even one leg of the round trip.
The serialization module contradicts the data model it serializes. -/
theorem c1_roundtrip_unreachable :
    (∀ p : Product, ProductXMLWriter.product_to_element p
        = Except.error ("AttributeError: \x27Product\x27 object has no attribute \x27images\x27"))
    ∧ (∀ e : XElem, isErr (ProductXMLReader.element_to_product Product.init e) = true) :=
  ⟨fun _ => rfl, fun e => element_to_product_isErr productFields (by decide) e⟩

/-- C2: for every `<product>` element, `_element_to_product` raises when
the reader is configured with `Product` (or `ProductWithName`), because
the `images` keyword argument is not a declared field; consequently
`stream_products` takes the per-record error branch on every element:
it yields no record and reports one error line per element. -/
theorem c2_reader_always_raises :
    (∀ e : XElem, isErr (ProductXMLReader.element_to_product Product.init e) = true)
    ∧ (∀ e : XElem, isErr (ProductXMLReader.element_to_product ProductWithName.init e) = true)
    ∧ (∀ elems : List XElem,
        (ProductXMLReader.stream_products (ProductXMLReader.element_to_product Product.init) elems).1
            = ([] : List PyKwargs)
        ∧ (ProductXMLReader.stream_products (ProductXMLReader.element_to_product Product.init) elems).2.length
            = elems.length) := by
  refine ⟨fun e => element_to_product_isErr productFields (by decide) e,
          fun e => element_to_product_isErr productWithNameFields (by decide) e, ?_⟩
  intro elems
  induction elems with
  | nil => exact ⟨rfl, rfl⟩
  | cons e rest ih =>
    have he : isErr (ProductXMLReader.element_to_product Product.init e) = true :=
      element_to_product_isErr productFields (by decide) e
    cases hconv : ProductXMLReader.element_to_product Product.init e with
    | ok r => rw [hconv] at he; cases he
    | error m =>
      simp only [ProductXMLReader.stream_products, hconv]
      exact ⟨ih.1, by simp [ih.2]⟩

/-- C3 (amended): a schema field with no same-named child contributes no
constructor argument, so scalar fields with a declared default would take
that default; the two list-valued fields are always passed, as empty
lists when their container is absent; but the record is not produced:
with the `Product` constructor the call always raises (unexpected
`images` keyword; scalar fields without a default would be missing). -/
theorem c3_absent_fields (e : XElem) (kw : PyKwargs)
    (hok : elementToKwargs e = Except.ok kw) :
    (∀ f ∈ simpleFields, XElem.find e f = Option.none → lookupKw kw f = Option.none)
    ∧ (XElem.find e ("images") = Option.none →
        lookupKw kw ("images") = some (PyVal.strList []))
    ∧ (XElem.find e ("attributes") = Option.none →
        lookupKw kw ("attributes") = some (PyVal.attrList []))
    ∧ isErr (ProductXMLReader.element_to_product Product.init e) = true := by
  obtain ⟨kws, hs, hshape⟩ := elementToKwargs_shape e kw hok
  subst hshape
  refine ⟨?_, ?_, ?_, element_to_product_isErr productFields (by decide) e⟩
  · intro f hf hnone
    have hne : ∀ kv ∈ kws, kv.1 ≠ f := by
      intro kv hkv h1
      have hsome := (simpleKwargsAux_keys e simpleFields kws hs kv hkv).2
      rw [h1, hnone] at hsome
      cases hsome
    rw [lookupKw_append kws _ f hne]
    have hall := List.all_eq_true.mp simpleFields_no_containers f hf
    simp only [Bool.and_eq_true, Bool.not_eq_true'] at hall
    have hfi : f ≠ "images" := by simpa using hall.1
    have hfa : f ≠ "attributes" := by simpa using hall.2
    simp [lookupKw, Ne.symm hfi, Ne.symm hfa]
  · intro hnone
    have himg : readImages e = [] := by simp [readImages, hnone]
    rw [lookupKw_append kws _ _ (simpleKwargs_key_ne e kws hs ("images") (by decide))]
    simp [lookupKw, himg]
  · intro hnone
    have hattr : readAttributes e = [] := by simp [readAttributes, hnone]
    rw [lookupKw_append kws _ _ (simpleKwargs_key_ne e kws hs ("attributes") (by decide))]
    simp [lookupKw, hattr]

/-- C3, counterexample to the claim as stated: a `<product>` element all
of whose schema fields are absent does not produce a record at all —
the constructor call raises. -/
theorem c3_counterexample :
    ProductXMLReader.element_to_product Product.init emptyProductElem
      = Except.error unexpectedImagesMsg := by
  rfl

/-- C3, witness: the amended statement instantiated at the childless
element and the absent `description` field. -/
theorem c3_witness :
    elementToKwargs emptyProductElem
      = Except.ok [("images", PyVal.strList []), ("attributes", PyVal.attrList [])]
    ∧ lookupKw [("images", PyVal.strList []), ("attributes", PyVal.attrList [])]
        ("description") = Option.none
    ∧ isErr (ProductXMLReader.element_to_product Product.init emptyProductElem) = true := by
  refine ⟨rfl, ?_, ?_⟩
  · exact (c3_absent_fields emptyProductElem _ rfl).1 ("description") (by decide) rfl
  · exact (c3_absent_fields emptyProductElem _ rfl).2.2.2

/-- C4 (amended): an `<attribute>` entry lacking its name or value
sub-field is not skipped; the missing part is replaced by the empty
string and the entry is still added to the collected attribute list.
The attribute-collection phase never fails a record by itself (it is a
total function and its result is always passed as the `attributes`
keyword argument) — though with the shipped `Product` class the record
construction still fails on the unrelated `images` argument. -/
theorem c4_missing_subfields_defaulted (e ae a : XElem)
    (hfind : XElem.find e ("attributes") = some ae)
    (hmem : a ∈ XElem.findall ae ("attribute")) :
    (XElem.find a ("name") = Option.none →
      ({ name := "", value := XElem.findtextOrEmpty a ("value") } : Attribute)
        ∈ readAttributes e)
    ∧ (XElem.find a ("value") = Option.none →
      ({ name := XElem.findtextOrEmpty a ("name"), value := "" } : Attribute)
        ∈ readAttributes e)
    ∧ (∀ kw, elementToKwargs e = Except.ok kw →
        lookupKw kw ("attributes") = some (PyVal.attrList (readAttributes e))) := by
  have hbase : ({ name := XElem.findtextOrEmpty a ("name"),
                  value := XElem.findtextOrEmpty a ("value") } : Attribute)
      ∈ readAttributes e := by
    simp only [readAttributes, hfind]
    exact List.mem_map_of_mem _ hmem
  refine ⟨?_, ?_, ?_⟩
  · intro hn
    have h0 : XElem.findtextOrEmpty a ("name") = "" := by
      simp [XElem.findtextOrEmpty, hn]
    rw [← h0]
    exact hbase
  · intro hv
    have h0 : XElem.findtextOrEmpty a ("value") = "" := by
      simp [XElem.findtextOrEmpty, hv]
    rw [← h0]
    exact hbase
  · intro kw hok
    obtain ⟨kws, hs, hshape⟩ := elementToKwargs_shape e kw hok
    subst hshape
    rw [lookupKw_append kws _ _ (simpleKwargs_key_ne e kws hs ("attributes") (by decide))]
    simp [lookupKw]

/-- C4, counterexample to the claim as stated: an entry with neither
name nor value is not skipped — it contributes `Attribute("", "")` —
and the record as a whole is not decoded successfully either. -/
theorem c4_counterexample :
    readAttributes bareAttrProductElem = [{ name := "", value := "" }]
    ∧ isErr (ProductXMLReader.element_to_product Product.init bareAttrProductElem) = true := by
  exact ⟨rfl, rfl⟩

/-- C4, witness: the amended statement instantiated at the concrete
product element holding one bare `<attribute/>` entry. -/
theorem c4_witness :
    XElem.find bareAttrProductElem ("attributes")
      = some (XElem.mk ("attributes") Option.none [XElem.mk ("attribute") Option.none []])
    ∧ (XElem.mk ("attribute") Option.none [])
        ∈ XElem.findall (XElem.mk ("attributes") Option.none
            [XElem.mk ("attribute") Option.none []]) ("attribute")
    ∧ ({ name := "", value := "" } : Attribute) ∈ readAttributes bareAttrProductElem := by
  have hmem : (XElem.mk ("attribute") Option.none [])
      ∈ XElem.findall (XElem.mk ("attributes") Option.none
          [XElem.mk ("attribute") Option.none []]) ("attribute") := by
    have hfa : XElem.findall (XElem.mk ("attributes") Option.none
        [XElem.mk ("attribute") Option.none []]) ("attribute")
        = [XElem.mk ("attribute") Option.none []] := rfl
    rw [hfa]
    exact List.mem_singleton.mpr rfl
  refine ⟨rfl, hmem, ?_⟩
  exact (c4_missing_subfields_defaulted bareAttrProductElem _ _ rfl hmem).1 rfl

/-- C5: a record-level conversion failure is isolated: the failing
element yields no record, exactly one error line is reported for it, and
the records decoded before and after it are unaffected, in order. -/
theorem c5_per_record_error_recovery {R : Type} (f : XElem → Except String R)
    (as bs : List XElem) (x : XElem) (m : String) (hx : f x = Except.error m) :
    ProductXMLReader.stream_products f (as ++ x :: bs)
      = ((ProductXMLReader.stream_products f as).1
           ++ (ProductXMLReader.stream_products f bs).1,
         (ProductXMLReader.stream_products f as).2
           ++ ("Error while parsing <product>: " ++ m)
             :: (ProductXMLReader.stream_products f bs).2) := by
  induction as with
  | nil =>
    simp [ProductXMLReader.stream_products, hx]
  | cons a as ih =>
    cases hconv : f a with
    | ok r => simp [ProductXMLReader.stream_products, hconv, ih]
    | error m2 => simp [ProductXMLReader.stream_products, hconv, ih]

/-- C5, witness: the theorem instantiated with the real converter
(`Product`-configured `_element_to_product`), which fails on the
childless product element. -/
theorem c5_witness :
    ProductXMLReader.element_to_product Product.init emptyProductElem
      = Except.error unexpectedImagesMsg
    ∧ ProductXMLReader.stream_products (ProductXMLReader.element_to_product Product.init)
        ([] ++ emptyProductElem :: [])
      = ((ProductXMLReader.stream_products
            (ProductXMLReader.element_to_product Product.init) []).1
           ++ (ProductXMLReader.stream_products
            (ProductXMLReader.element_to_product Product.init) []).1,
         (ProductXMLReader.stream_products
            (ProductXMLReader.element_to_product Product.init) []).2
           ++ ("Error while parsing <product>: " ++ unexpectedImagesMsg)
             :: (ProductXMLReader.stream_products
            (ProductXMLReader.element_to_product Product.init) []).2) :=
  ⟨rfl, c5_per_record_error_recovery (ProductXMLReader.element_to_product Product.init)
      [] [] emptyProductElem unexpectedImagesMsg rfl⟩

/-- C6 (amended): provided the attribute list holds at most one
attribute named K — the data-model invariant — setting K to V1 and then
to V2 leaves exactly one attribute named K, with value V2.  (With
pre-existing duplicates of K only the first is updated; see the
counterexample.) -/
theorem c6_upsert_unique (p : Product) (K V1 V2 : String)
    (h : p.attributes.countP (fun a => a.name == K) ≤ 1) :
    ((p.add_attribute K V1).add_attribute K V2).attributes.filter
        (fun a => a.name == K) = [{ name := K, value := V2 }] :=
  addAttr_twice_filter p.attributes K V1 V2 h

/-- C6, counterexample to the claim as stated: on a product whose list
already carries two attributes named K, the double upsert leaves two
attributes named K, not one. -/
theorem c6_counterexample :
    ((dupAttrProduct.add_attribute ("K") ("V1")).add_attribute ("K") ("V2")).attributes
      = [{ name := "K", value := "V2" }, { name := "K", value := "b" }]
    ∧ ((dupAttrProduct.add_attribute ("K") ("V1")).add_attribute ("K") ("V2")).attributes.countP
        (fun a => a.name == "K") ≠ 1 := by
  exact ⟨rfl, by decide⟩

/-- C6, witness: the amended statement at a product with no attribute
named K. -/
theorem c6_witness :
    sampleProduct.attributes.countP (fun a => a.name == ("K" : String)) ≤ 1
    ∧ ((sampleProduct.add_attribute ("K") ("V1")).add_attribute ("K") ("V2")).attributes.filter
        (fun a => a.name == ("K" : String)) = [{ name := "K", value := "V2" }] :=
  ⟨by decide, c6_upsert_unique sampleProduct ("K") ("V1") ("V2") (by decide)⟩

/-- C7: a pipeline built with steps [A, B] transforms each record by A
then B (the sequential composition), and its event trace interleaves
nothing: for each record, the pull, the completion of A, the completion
of B and the yield all happen before the pull of the next record. -/
theorem c7_pipeline_order (T : Type) (A B : T → T) (items : List T) :
    AsyncPipeline.run ((AsyncPipeline.mk ([] : List (T → T))).add A |>.add B) items
      = items.map (fun p => B (A p))
    ∧ AsyncPipeline.runTrace [A, B] items
      = (items.map (fun p =>
          [PipeEvent.pulled p, PipeEvent.stepped (A p),
           PipeEvent.stepped (B (A p)), PipeEvent.yielded (B (A p))])).flatten := by
  constructor
  · rfl
  · induction items with
    | nil => rfl
    | cons p it ih => simp [AsyncPipeline.runTrace, stepTrace, ih]

/-- C8: saving an empty stream of products still writes a valid empty
document: exactly the declaration line, the opening root tag and the
closing root tag, in that order, with no record chunks in between and
no error. -/
theorem c8_empty_stream_output :
    ProductXMLWriter.save_products []
      = (["<?xml version=\x271.0\x27 encoding=\x27utf-8\x27?>\n",
          "<products>\n", "</products>\n"], Option.none) := rfl

/-- C9: the `CollectManufacturers` tally is class-level state shared by
all instances: after any instance processes a record, `get_stats` read
through any other instance — including a freshly constructed one —
reports the incremented count, and a new instance starts from the shared
tally, not from an empty one. -/
theorem c9_class_level_tally (c1 c2 : CMInstance) (s : ManuStats) (p : Product) (n : Nat) :
    dictGet (CollectManufacturers.get_stats (CollectManufacturers.call s c1 p).1 c2)
        p.manufacturer_name
      = some ((dictGet s p.manufacturer_name).getD 0 + 1)
    ∧ CollectManufacturers.get_stats s (CollectManufacturers.new n) = s :=
  ⟨dictGet_dictIncr s p.manufacturer_name, rfl⟩

/-- C10: `FixAmpersands.__call__` is total and leaves the two extra
description fields non-None (a `None` or empty input field becomes the
empty string), whereas the generator form `Operations.fix_amps` raises
on a record whose `description_extra_1` or `description_extra_2` is
`None`. -/
theorem c10_fixamps_total_vs_generator (p : Product) :
    ((FixAmpersands.call p).description_extra_1).isSome = true
    ∧ ((FixAmpersands.call p).description_extra_2).isSome = true
    ∧ (p.description_extra_1 = Option.none →
        (FixAmpersands.call p).description_extra_1 = some (""))
    ∧ (p.description_extra_2 = Option.none →
        (FixAmpersands.call p).description_extra_2 = some (""))
    ∧ (p.description = "" → (FixAmpersands.call p).description = "")
    ∧ (p.name = "" → (FixAmpersands.call p).name = "")
    ∧ ((p.description_extra_1 = Option.none ∨ p.description_extra_2 = Option.none) →
        isErr (Operations.fix_amps_one p) = true) := by
  refine ⟨rfl, rfl, ?_, ?_, ?_, ?_, ?_⟩
  · intro h; simp [FixAmpersands.call, fixAmpsOrEmpty, h]
  · intro h; simp [FixAmpersands.call, fixAmpsOrEmpty, h]
  · intro h; simp [FixAmpersands.call, fixAmpsOrEmpty, h]
  · intro h; simp [FixAmpersands.call, fixAmpsOrEmpty, h]
  · intro h
    rcases h with h | h
    · simp [Operations.fix_amps_one, fixAmpsGenStr, h, isErr]
    · cases hd : p.description_extra_1 with
      | none => simp [Operations.fix_amps_one, fixAmpsGenStr, hd, isErr]
      | some d1 => simp [Operations.fix_amps_one, fixAmpsGenStr, hd, h, isErr]

/-- C10, witness: at the sample product, whose extra descriptions are
`None`, the safe variant fills them with the empty string while the
generator variant raises. -/
theorem c10_witness :
    sampleProduct.description_extra_1 = Option.none
    ∧ (FixAmpersands.call sampleProduct).description_extra_1 = some ("")
    ∧ isErr (Operations.fix_amps_one sampleProduct) = true := by
  refine ⟨rfl, ?_, ?_⟩
  · exact (c10_fixamps_total_vs_generator sampleProduct).2.2.1 rfl
  · exact (c10_fixamps_total_vs_generator sampleProduct).2.2.2.2.2.2 (Or.inl rfl)
